import Mathlib

/-!
Shallow embedding of the PayLentine backend transaction core.

The definitions below are translated from the TypeScript source:
* `Wallet`, `Wallet.hasInsufficientBalance` — src/unnamed/part_000 (models/Wallet.ts);
* `PendingTransaction` and its instance methods — src/src/models/PendingTransaction.ts;
* `MultiSigSettings` and its instance methods — src/unnamed/part_000 (models/MultiSigSettings.ts);
* `TransactionService.transferMoney`, `addMoney`, `findOrCreateWallet` —
  src/src/scripts/seed.ts (the TransactionService section);
* `MultiSigService.updateSettings`, `checkMultiSigRequired`, `approveTransaction`,
  `rejectTransaction`, `cancelTransaction` — src/src/services/MultiSigService.ts.

Database rows are lists of records; `find?` models sequelize `findOne` (first
matching row), `updateFirst` models an UPDATE of the row that `findOne` returned.
DECIMAL(15,2) money amounts are modelled as rationals.  Wall-clock time
(`new Date()`) is passed explicitly as a natural-number timestamp `now`.
-/

namespace PayLentine

/-- Status enum of src/src/models/PendingTransaction.ts. -/
inductive TransactionStatus
  | pending | approved | rejected | expired | cancelled
deriving DecidableEq, Repr

/-- Transaction-type enum of src/src/models/PendingTransaction.ts. -/
inductive PendingTransactionType
  | walletTransfer | communityMarket | withdrawal | payment
deriving DecidableEq, Repr

/-- User row (models/User.ts); only the fields the transaction core reads. -/
structure User where
  id : Nat
  isActive : Bool
deriving DecidableEq, Repr

/-- Wallet row (models/Wallet.ts via src/unnamed/part_000). -/
structure Wallet where
  id : Nat
  userId : Nat
  balance : Rat
  currency : String
  isActive : Bool
deriving DecidableEq, Repr

/-- Wallet.hasInsufficientBalance: `return this.balance < amount`. -/
def Wallet.hasInsufficientBalance (w : Wallet) (amount : Rat) : Bool :=
  w.balance < amount

/-- MultiSigSettings row (models/MultiSigSettings.ts via src/unnamed/part_000).
`signerUserId` is nullable in the schema, hence an `Option`. -/
structure MultiSigSettings where
  userId : Nat
  isEnabled : Bool
  thresholdAmount : Rat
  signerUserId : Option Nat
  requiresSeedPhrase : Bool
deriving DecidableEq, Repr

/-- MultiSigSettings.hasValidSigner:
`this.signerUserId !== null && this.signerUserId !== undefined`. -/
def MultiSigSettings.hasValidSigner (s : MultiSigSettings) : Bool :=
  s.signerUserId.isSome

/-- PendingTransaction row (src/src/models/PendingTransaction.ts). -/
structure PendingTransaction where
  id : Nat
  initiatorUserId : Nat
  signerUserId : Nat
  transactionType : PendingTransactionType
  amount : Rat
  currency : String
  recipientUserId : Option Nat
  description : Option String
  status : TransactionStatus
  expiresAt : Nat
  approvedAt : Option Nat
  rejectedAt : Option Nat
  approvalMessage : Option String
  rejectionReason : Option String
deriving DecidableEq, Repr

/-- PendingTransaction.isExpired: `return new Date() > this.expiresAt`. -/
def PendingTransaction.isExpired (t : PendingTransaction) (now : Nat) : Bool :=
  t.expiresAt < now

/-- PendingTransaction.canBeApproved:
`return this.status === 'pending' && !this.isExpired()`. -/
def PendingTransaction.canBeApproved (t : PendingTransaction) (now : Nat) : Bool :=
  t.status == .pending && !(t.isExpired now)

/-- Persistent store: one list of rows per table. -/
structure DB where
  users : List User
  wallets : List Wallet
  settings : List MultiSigSettings
  pendings : List PendingTransaction
deriving DecidableEq, Repr

/-- Apply `f` to the first list element satisfying `p` (the row `findOne`
returns), leaving the rest unchanged; models a sequelize instance `save` /
`increment` / `decrement` on that row. -/
def updateFirst (p : α → Bool) (f : α → α) : List α → List α
  | [] => []
  | a :: l => if p a then f a :: l else a :: updateFirst p f l

/-- Row predicate of the wallet queries `where: { userId, currency }`. -/
def walletKey (userId : Nat) (currency : String) (w : Wallet) : Bool :=
  w.userId == userId && w.currency == currency

/-- TransactionService.findOrCreateWallet (seed.ts): `Wallet.findOrCreate` on
`{ userId, currency }` with defaults `balance: 0.00, isActive: true`. -/
def findOrCreateWallet (db : DB) (userId : Nat) (currency : String) : Wallet × DB :=
  match db.wallets.find? (walletKey userId currency) with
  | some w => (w, db)
  | none =>
    let w : Wallet :=
      { id := db.wallets.length + 1, userId := userId, balance := 0,
        currency := currency, isActive := true }
    (w, { db with wallets := db.wallets ++ [w] })

/-- Successful-transfer payload of TransactionService.transferMoney
(the reloaded post-transfer balances of both parties). -/
structure TransferOk where
  fromUserId : Nat
  toUserId : Nat
  fromNewBalance : Rat
  toNewBalance : Rat
  amount : Rat
  currency : String
deriving DecidableEq, Repr

/-- TransactionService.transferMoney (seed.ts).  The whole call runs in one
sequelize transaction: every `errorResponse` branch is preceded by
`transaction.rollback()`, so the store reverts to the entry state `db`
(including any wallet rows `findOrCreate` inserted); only the final branch
commits the relative decrement/increment of the two wallet rows. -/
def transferMoney (db : DB) (fromUserId toUserId : Nat) (amount : Rat) (currency : String) :
    Except String TransferOk × DB :=
  if fromUserId == toUserId then
    (.error "Cannot transfer money to yourself", db)
  else if amount ≤ 0 then
    (.error "Transfer amount must be greater than zero", db)
  else
    match db.users.find? (fun u => u.id == fromUserId),
          db.users.find? (fun u => u.id == toUserId) with
    | some fromUser, some toUser =>
      if !fromUser.isActive || !toUser.isActive then
        (.error "One or both user accounts are inactive", db)
      else
        match findOrCreateWallet db fromUserId currency with
        | (fromWallet, db1) =>
          match findOrCreateWallet db1 toUserId currency with
          | (toWallet, db2) =>
            if fromWallet.hasInsufficientBalance amount then
              (.error "Insufficient balance for transfer", db)
            else if fromWallet.currency != currency || toWallet.currency != currency then
              (.error "Currency mismatch between wallets", db)
            else
              (.ok
                { fromUserId := fromUserId, toUserId := toUserId,
                  fromNewBalance := fromWallet.balance - amount,
                  toNewBalance := toWallet.balance + amount,
                  amount := amount, currency := currency },
                { db2 with wallets :=
                    (updateFirst (walletKey toUserId currency)
                      (fun w => { w with balance := w.balance + amount })
                      (updateFirst (walletKey fromUserId currency)
                        (fun w => { w with balance := w.balance - amount }) db2.wallets)) })
    | _, _ => (.error "One or both users not found", db)

/-- TransactionService.addMoney (seed.ts): validates amount and user, then
`findOrCreateWallet` and `wallet.increment('balance', { by: amount })`. -/
def addMoney (db : DB) (userId : Nat) (amount : Rat) (currency : String) :
    Except String Rat × DB :=
  if amount ≤ 0 then
    (.error "Amount must be greater than zero", db)
  else
    match db.users.find? (fun u => u.id == userId) with
    | none => (.error "User not found or inactive", db)
    | some user =>
      if !user.isActive then
        (.error "User not found or inactive", db)
      else
        match findOrCreateWallet db userId currency with
        | (w, db1) =>
          (.ok (w.balance + amount),
            { db1 with wallets := (updateFirst (walletKey userId currency)
                (fun x => { x with balance := x.balance + amount }) db1.wallets) })

/-- Result shape of MultiSigService.checkMultiSigRequired.  The dynamic text
interpolated into the below-threshold reason is abbreviated to a static
string; the claims only consult `requiresMultiSig` and `signerUserId`. -/
structure MultiSigCheckResult where
  requiresMultiSig : Bool
  reason : Option String
  signerUserId : Option Nat
deriving DecidableEq, Repr

/-- MultiSigService.checkMultiSigRequired: no settings, disabled, no valid
signer, or amount strictly below threshold give `requiresMultiSig: false`;
otherwise `true` with the settings' `signerUserId`. -/
def checkMultiSigRequired (db : DB) (userId : Nat) (amount : Rat) : MultiSigCheckResult :=
  match db.settings.find? (fun s => s.userId == userId) with
  | none =>
    { requiresMultiSig := false, reason := some "Multi-sig not configured", signerUserId := none }
  | some settings =>
    if !settings.isEnabled then
      { requiresMultiSig := false, reason := some "Multi-sig disabled", signerUserId := none }
    else if !settings.hasValidSigner then
      { requiresMultiSig := false, reason := some "No valid signer assigned", signerUserId := none }
    else if amount < settings.thresholdAmount then
      { requiresMultiSig := false, reason := some "Amount below threshold", signerUserId := none }
    else
      { requiresMultiSig := true, reason := none, signerUserId := settings.signerUserId }

/-- Payload of MultiSigService.updateSettings.  `isEnabled` is mandatory (the
controller rejects non-boolean values); the other fields are optional and an
absent (`undefined`) value is skipped by sequelize `update`/`create`, so they
are `Option`s with `none` meaning "not supplied". -/
structure MultiSigSettingsData where
  isEnabled : Bool
  thresholdAmount : Option Rat
  signerUserId : Option Nat
  requiresSeedPhrase : Option Bool
deriving DecidableEq, Repr

/-- JavaScript test `settings.signerUserId !== settingsData.signerUserId` where
the stored side may be `null` and the incoming side may be `undefined`: it is
false only when both sides are the same number (`null !== undefined` is true). -/
def signerChangedJs (stored incoming : Option Nat) : Bool :=
  match stored, incoming with
  | some a, some b => a != b
  | _, _ => true

/-- Sequelize `settings.update(settingsData)`: fields whose incoming value is
`undefined` keep their stored value. -/
def applySettingsData (s : MultiSigSettings) (d : MultiSigSettingsData) : MultiSigSettings :=
  { s with
    isEnabled := d.isEnabled,
    thresholdAmount := d.thresholdAmount.getD s.thresholdAmount,
    signerUserId := match d.signerUserId with
      | some v => some v
      | none => s.signerUserId,
    requiresSeedPhrase := d.requiresSeedPhrase.getD s.requiresSeedPhrase }

/-- Sequelize `MultiSigSettings.create({ userId, ...settingsData })`; absent
fields take the column defaults `thresholdAmount: 1000.0`,
`requiresSeedPhrase: true`. -/
def createSettings (userId : Nat) (d : MultiSigSettingsData) : MultiSigSettings :=
  { userId := userId,
    isEnabled := d.isEnabled,
    thresholdAmount := d.thresholdAmount.getD 1000,
    signerUserId := d.signerUserId,
    requiresSeedPhrase := d.requiresSeedPhrase.getD true }

/-- Signer validation block at the end of MultiSigService.updateSettings.  It
runs on the already-persisted record `s` against the already-updated store
`db1`; `if (settings.signerUserId)` is a JS truthiness test, so a signer id of
`0` skips validation.  Errors thrown here are re-thrown by the service's catch
with the `Failed to update multi-sig settings:` prefix, and nothing rolls the
earlier `update`/`create` back.  (The not-found branch is kept from the source
text, though the store's foreign key on `signer_user_id` makes it unreachable
for a persisted row.) -/
def validateSignerStep (db1 : DB) (userId : Nat) (s : MultiSigSettings) :
    Except String MultiSigSettings × DB :=
  match s.signerUserId with
  | none => (.ok s, db1)
  | some sid =>
    if sid == 0 then (.ok s, db1)
    else
      match db1.users.find? (fun u => u.id == sid) with
      | none => (.error "Failed to update multi-sig settings: Signer user not found", db1)
      | some signer =>
        if signer.id == userId then
          (.error "Failed to update multi-sig settings: Cannot set yourself as the signer", db1)
        else (.ok s, db1)

/-- Foreign keys of the multi_sig_settings table: MultiSigSettings.init
declares `references: users.id` on both `user_id` and `signer_user_id`, and
`sequelize.sync` creates them as enforced constraints on MySQL/InnoDB — an
INSERT or UPDATE whose user id or (non-null) signer id names no existing user
row is rejected by the store itself and persists nothing. -/
def settingsRowFkOk (db : DB) (s : MultiSigSettings) : Bool :=
  (db.users.find? (fun u => u.id == s.userId)).isSome &&
    (match s.signerUserId with
     | none => true
     | some sid => (db.users.find? (fun u => u.id == sid)).isSome)

/-- MultiSigService.updateSettings: on existing settings, first the
locked-settings guard (disabling or changing the signer while
`requiresSeedPhrase` is set needs `seedPhraseVerified`), then the sequelize
`update` (or `create` when absent) — which the store accepts only if the row
satisfies the foreign keys (`settingsRowFkOk`); a violation surfaces through
the service's catch (the MySQL message is dynamic, abbreviated here to a
representative static string) with nothing persisted — and finally
`validateSignerStep` on the persisted record. -/
def updateSettings (db : DB) (userId : Nat) (data : MultiSigSettingsData)
    (seedPhraseVerified : Bool) : Except String MultiSigSettings × DB :=
  match db.settings.find? (fun s => s.userId == userId) with
  | some settings =>
    let requiresVerification :=
      (settings.isEnabled && !data.isEnabled) ||
        signerChangedJs settings.signerUserId data.signerUserId
    if requiresVerification && settings.requiresSeedPhrase && !seedPhraseVerified then
      (.error "Failed to update multi-sig settings: Seed phrase verification required for this operation", db)
    else
      let s' := applySettingsData settings data
      if settingsRowFkOk db s' then
        validateSignerStep
          { db with settings := updateFirst (fun s => s.userId == userId) (fun _ => s') db.settings }
          userId s'
      else
        (.error "Failed to update multi-sig settings: Cannot add or update a child row: a foreign key constraint fails", db)
  | none =>
    let s' := createSettings userId data
    if settingsRowFkOk db s' then
      validateSignerStep { db with settings := db.settings ++ [s'] } userId s'
    else
      (.error "Failed to update multi-sig settings: Cannot add or update a child row: a foreign key constraint fails", db)

/-- Row predicate of the `findOne` in approveTransaction / rejectTransaction:
`where: { id: transactionId, signerUserId, status: 'pending' }`. -/
def approveQuery (transactionId signerUserId : Nat) (t : PendingTransaction) : Bool :=
  t.id == transactionId && t.signerUserId == signerUserId && t.status == .pending

/-- Row predicate of the `findOne` in cancelTransaction:
`where: { id: transactionId, initiatorUserId, status: 'pending' }`. -/
def cancelQuery (transactionId initiatorUserId : Nat) (t : PendingTransaction) : Bool :=
  t.id == transactionId && t.initiatorUserId == initiatorUserId && t.status == .pending

/-- PendingTransaction.approve on a record that passed `canBeApproved`:
sets status, `approvedAt` and the message, then saves.  No other table is
touched — in particular no wallet row. -/
def PendingTransaction.approveRecord (t : PendingTransaction) (now : Nat)
    (message : Option String) : PendingTransaction :=
  { t with status := .approved, approvedAt := some now, approvalMessage := message }

/-- MultiSigService.approveTransaction.  Both the missing-row case and the
guard failure inside PendingTransaction.approve surface through the service's
catch as `Failed to approve transaction: ...`. -/
def approveTransaction (db : DB) (transactionId signerUserId : Nat) (now : Nat)
    (message : Option String) : Except String PendingTransaction × DB :=
  match db.pendings.find? (approveQuery transactionId signerUserId) with
  | none =>
    (.error "Failed to approve transaction: Pending transaction not found or already processed", db)
  | some t =>
    if t.canBeApproved now then
      let t' := t.approveRecord now message
      (.ok t',
        { db with pendings := updateFirst (approveQuery transactionId signerUserId) (fun _ => t') db.pendings })
    else
      (.error "Failed to approve transaction: Transaction cannot be approved in current state", db)

/-- MultiSigService.rejectTransaction: same lookup as approve, then the
mandatory-reason check `!reason || reason.trim().length === 0` — a string
trims to empty exactly when every character is whitespace (the empty string
included), which is how the check is written here — then
PendingTransaction.reject behind the same `canBeApproved` guard. -/
def rejectTransaction (db : DB) (transactionId signerUserId : Nat) (now : Nat)
    (reason : String) : Except String PendingTransaction × DB :=
  match db.pendings.find? (approveQuery transactionId signerUserId) with
  | none =>
    (.error "Failed to reject transaction: Pending transaction not found or already processed", db)
  | some t =>
    if reason.data.all Char.isWhitespace then
      (.error "Failed to reject transaction: Rejection reason is required", db)
    else if t.canBeApproved now then
      let t' := { t with status := .rejected, rejectedAt := some now, rejectionReason := some reason }
      (.ok t',
        { db with pendings := updateFirst (approveQuery transactionId signerUserId) (fun _ => t') db.pendings })
    else
      (.error "Failed to reject transaction: Transaction cannot be rejected in current state", db)

/-- MultiSigService.cancelTransaction.  PendingTransaction.cancel checks only
`this.status !== 'pending'` — unlike approve/reject it never consults
`isExpired`, so an expired-but-still-pending record is cancelled normally (the
beforeUpdate auto-expire hook does not fire because the status being saved is
already `cancelled`, not `pending`). -/
def cancelTransaction (db : DB) (transactionId initiatorUserId : Nat) :
    Except String PendingTransaction × DB :=
  match db.pendings.find? (cancelQuery transactionId initiatorUserId) with
  | none =>
    (.error "Failed to cancel transaction: Pending transaction not found or cannot be cancelled", db)
  | some t =>
    if t.status == .pending then
      let t' := { t with status := .cancelled }
      (.ok t',
        { db with pendings := updateFirst (cancelQuery transactionId initiatorUserId) (fun _ => t') db.pendings })
    else
      (.error "Failed to cancel transaction: Only pending transactions can be cancelled", db)

/-- Local state of one in-flight transferMoney call that debits a shared
sender wallet.  `readBalance` is the value obtained by the call's SELECT of
the wallet row (sequelize's default transaction takes no row lock and the
isolation level is not raised, so this read is unguarded); `committed` records
the outcome: `some false` = rolled back with the insufficient-balance error,
`some true` = committed. -/
structure CallState where
  amount : Rat
  readBalance : Option Rat
  committed : Option Bool
deriving DecidableEq, Repr

/-- One store-level step of a call, mirroring the source's order of database
actions in transferMoney: first the unlocked SELECT of the sender wallet, then
`hasInsufficientBalance` evaluated on the value that SELECT returned, and —
only if that stale check passed — the relative
`UPDATE balance = balance - amount` (sequelize `decrement`), which the store
applies to the current row value. -/
def stepCall (w : Wallet) (c : CallState) : Wallet × CallState :=
  match c.readBalance, c.committed with
  | none, _ => (w, { c with readBalance := some w.balance })
  | some b, none =>
    if ({ w with balance := b } : Wallet).hasInsufficientBalance c.amount then
      (w, { c with committed := some false })
    else
      ({ w with balance := w.balance - c.amount }, { c with committed := some true })
  | some _, some _ => (w, c)

/-- Run two concurrent transferMoney calls against one sender wallet under an
interleaving: `true` schedules a step of the first call, `false` one of the
second. -/
def runSchedule : List Bool → Wallet → CallState → CallState → Wallet × CallState × CallState
  | [], w, c1, c2 => (w, c1, c2)
  | pick :: rest, w, c1, c2 =>
    if pick then
      let s := stepCall w c1
      runSchedule rest s.1 s.2 c2
    else
      let s := stepCall w c2
      runSchedule rest s.1 c1 s.2

/-- Balance non-negativity is stated over all wallet rows of the store. -/
def WalletsNonneg (db : DB) : Prop := ∀ w ∈ db.wallets, 0 ≤ w.balance

/-- External operations of the ledger reachable through WalletController:
`credit` is TransactionService.addMoney, `transfer` is
TransactionService.transferMoney. -/
inductive LedgerOp
  | credit (userId : Nat) (amount : Rat) (currency : String)
  | transfer (fromUserId toUserId : Nat) (amount : Rat) (currency : String)
deriving DecidableEq, Repr

/-- Store effect of one ledger operation. -/
def applyLedgerOp (db : DB) : LedgerOp → DB
  | .credit u a c => (addMoney db u a c).2
  | .transfer f t a c => (transferMoney db f t a c).2

/-- Shared sender wallet of the double-spend scenario: balance 100. -/
def senderWallet : Wallet :=
  { id := 1, userId := 1, balance := 100, currency := "USD", isActive := true }

/-- One of the two identical concurrent transfer calls of 80. -/
def freshCall : CallState := { amount := 80, readBalance := none, committed := none }

/-- Policy of user A in the spec §8 scenario: enabled, threshold 100,
approver C (id 3), not locked. -/
def policySettings : MultiSigSettings :=
  { userId := 1, isEnabled := true, thresholdAmount := 100,
    signerUserId := some 3, requiresSeedPhrase := false }

/-- Store for the approval scenario of spec §8: A (id 1, 500 USD), B (id 2,
0 USD), approver C (id 3); A's policy {enabled, threshold 100, approver C};
one pending wallet-transfer of 150 from A to B expiring at time 2000. -/
def dbApproval : DB :=
  { users := [{ id := 1, isActive := true }, { id := 2, isActive := true },
              { id := 3, isActive := true }],
    wallets := [{ id := 1, userId := 1, balance := 500, currency := "USD", isActive := true },
                { id := 2, userId := 2, balance := 0, currency := "USD", isActive := true }],
    settings := [policySettings],
    pendings := [{ id := 1, initiatorUserId := 1, signerUserId := 3,
                   transactionType := .walletTransfer, amount := 150, currency := "USD",
                   recipientUserId := some 2, description := none, status := .pending,
                   expiresAt := 2000, approvedAt := none, rejectedAt := none,
                   approvalMessage := none, rejectionReason := none }] }

/-- Store for the direct-transfer scenario: A and B with wallets, A's policy
requires approval above 100, and no pending record exists yet. -/
def dbPolicy : DB :=
  { users := [{ id := 1, isActive := true }, { id := 2, isActive := true },
              { id := 3, isActive := true }],
    wallets := [{ id := 1, userId := 1, balance := 500, currency := "USD", isActive := true },
                { id := 2, userId := 2, balance := 0, currency := "USD", isActive := true }],
    settings := [policySettings],
    pendings := [] }

/-- Store with two active users and one funded wallet, for ledger witnesses. -/
def dbLedger : DB :=
  { users := [{ id := 1, isActive := true }, { id := 2, isActive := true }],
    wallets := [{ id := 1, userId := 1, balance := 100, currency := "USD", isActive := true }],
    settings := [], pendings := [] }

/-- Pending wallet-transfer that expired at time 100, initiated by user 2
with designated signer 3, still recorded with status pending (no sweep ran). -/
def expiredRec : PendingTransaction :=
  { id := 1, initiatorUserId := 2, signerUserId := 3,
    transactionType := .walletTransfer, amount := 50, currency := "USD",
    recipientUserId := none, description := none, status := .pending,
    expiresAt := 100, approvedAt := none, rejectedAt := none,
    approvalMessage := none, rejectionReason := none }

/-- Store holding only the expired-but-still-pending record. -/
def dbExpired : DB :=
  { users := [{ id := 2, isActive := true }, { id := 3, isActive := true }],
    wallets := [], settings := [],
    pendings := [expiredRec] }

/-- Locked policy of user 1: enabled, threshold 100, approver 2,
requiresSeedPhrase set. -/
def lockedSettings : MultiSigSettings :=
  { userId := 1, isEnabled := true, thresholdAmount := 100,
    signerUserId := some 2, requiresSeedPhrase := true }

/-- Store whose user 1 has locked (requiresSeedPhrase) multi-sig settings with
approver 2. -/
def dbLocked : DB :=
  { users := [{ id := 1, isActive := true }, { id := 2, isActive := true }],
    wallets := [],
    settings := [lockedSettings],
    pendings := [] }

/-- Request that disables user 1's locked policy (no other change supplied). -/
def disableData : MultiSigSettingsData :=
  { isEnabled := false, thresholdAmount := none, signerUserId := some 2,
    requiresSeedPhrase := none }

/-- Store with one user and no settings, for the approver-validation scenario. -/
def dbNoSettings : DB :=
  { users := [{ id := 1, isActive := true }], wallets := [], settings := [], pendings := [] }

/-- Request naming the nonexistent user 99 as approver. -/
def badSignerData : MultiSigSettingsData :=
  { isEnabled := true, thresholdAmount := some 100, signerUserId := some 99,
    requiresSeedPhrase := some false }

/-- Request by user 1 naming themselves as approver. -/
def selfSignerData : MultiSigSettingsData :=
  { isEnabled := true, thresholdAmount := some 100, signerUserId := some 1,
    requiresSeedPhrase := some false }


theorem updateFirst_mem {α : Type} {p : α → Bool} {f : α → α} {l : List α} {x : α}
    (hx : x ∈ updateFirst p f l) :
    x ∈ l ∨ ∃ w, l.find? p = some w ∧ x = f w := by
  induction l with
  | nil => simp [updateFirst] at hx
  | cons a t ih =>
    by_cases hp : p a
    · rw [updateFirst, if_pos hp] at hx
      rcases List.mem_cons.mp hx with h | h
      · exact Or.inr ⟨a, by rw [List.find?_cons_of_pos _ hp], h⟩
      · exact Or.inl (List.mem_cons_of_mem _ h)
    · rw [updateFirst, if_neg hp] at hx
      rcases List.mem_cons.mp hx with h | h
      · exact Or.inl (h ▸ List.mem_cons_self _ _)
      · rcases ih h with h1 | ⟨w, hw, hx'⟩
        · exact Or.inl (List.mem_cons_of_mem _ h1)
        · exact Or.inr ⟨w, by rw [List.find?_cons_of_neg _ hp]; exact hw, hx'⟩

theorem find?_append_left {α : Type} {p : α → Bool} {l1 l2 : List α} {x : α}
    (h : l1.find? p = some x) : (l1 ++ l2).find? p = some x := by
  rw [List.find?_append, h]; rfl

theorem findOrCreateWallet_find_self (db : DB) (u : Nat) (c : String) :
    (findOrCreateWallet db u c).2.wallets.find? (walletKey u c) =
      some (findOrCreateWallet db u c).1 := by
  unfold findOrCreateWallet
  cases h : db.wallets.find? (walletKey u c) with
  | some w => simp only [h]
  | none =>
    simp only [h]
    rw [List.find?_append, h]
    simp [walletKey]

theorem findOrCreateWallet_find_preserved (db : DB) (u : Nat) (c : String)
    {p : Wallet → Bool} {x : Wallet} (h : db.wallets.find? p = some x) :
    (findOrCreateWallet db u c).2.wallets.find? p = some x := by
  unfold findOrCreateWallet
  cases hf : db.wallets.find? (walletKey u c) with
  | some w => simp only [hf]; exact h
  | none => simp only [hf]; exact find?_append_left h

theorem findOrCreateWallet_nonneg (db : DB) (u : Nat) (c : String)
    (h : WalletsNonneg db) : WalletsNonneg (findOrCreateWallet db u c).2 := by
  unfold findOrCreateWallet
  cases hf : db.wallets.find? (walletKey u c) with
  | some w => simp only [hf]; exact h
  | none =>
    intro w hw
    simp only [hf, List.mem_append, List.mem_singleton] at hw
    rcases hw with hw | rfl
    · exact h _ hw
    · simp

theorem findOrCreateWallet_pendings (db : DB) (u : Nat) (c : String) :
    (findOrCreateWallet db u c).2.pendings = db.pendings := by
  unfold findOrCreateWallet
  cases hf : db.wallets.find? (walletKey u c) <;> simp [hf]

/-- C4: transferMoney runs inside one store transaction and rolls it back on
every validation failure (self-transfer, non-positive amount, missing or
inactive user, insufficient balance, currency mismatch), so whenever the call
returns a typed error the whole store — in particular both parties' wallet
balances — is exactly the entry state. -/
theorem transferMoney_failure_atomic (db : DB) (f t : Nat) (a : Rat) (c : String)
    (e : String) (h : (transferMoney db f t a c).1 = .error e) :
    (transferMoney db f t a c).2 = db := by
  revert h
  unfold transferMoney
  repeat' split
  all_goals intro h
  all_goals first | rfl | (exact absurd h (by simp))

theorem transferMoney_snd_shape (db : DB) (f t : Nat) (a : Rat) (c : String) :
    (transferMoney db f t a c).2 = db ∨
    (¬ a ≤ 0 ∧ ∃ fromWallet db1 toWallet db2,
      findOrCreateWallet db f c = (fromWallet, db1) ∧
      findOrCreateWallet db1 t c = (toWallet, db2) ∧
      ¬ fromWallet.hasInsufficientBalance a = true ∧
      (transferMoney db f t a c).2 =
        { db2 with wallets :=
            (updateFirst (walletKey t c) (fun w => { w with balance := w.balance + a })
              (updateFirst (walletKey f c) (fun w => { w with balance := w.balance - a })
                db2.wallets)) }) := by
  unfold transferMoney
  repeat' split
  any_goals (left; rfl)
  rename_i hself ha su1 su2 fromUser toUser hfu htu hact wp1 fromWallet db1 heq1 wp2 toWallet db2 heq2 hbal hcur
  exact Or.inr ⟨ha, fromWallet, db1, toWallet, db2, heq1, heq2, hbal, rfl⟩

theorem addMoney_snd_shape (db : DB) (u : Nat) (a : Rat) (c : String) :
    (addMoney db u a c).2 = db ∨
    (¬ a ≤ 0 ∧ ∃ w db1, findOrCreateWallet db u c = (w, db1) ∧
      (addMoney db u a c).2 =
        { db1 with wallets := (updateFirst (walletKey u c)
            (fun x => { x with balance := x.balance + a }) db1.wallets) }) := by
  unfold addMoney
  repeat' split
  any_goals (left; rfl)
  rename_i ha su1 user hu hact wp w db1 heq
  exact Or.inr ⟨ha, w, db1, heq, rfl⟩

theorem nonneg_after_moves (ws : List Wallet) (f t : Nat) (c : String) (a : Rat)
    (hws : ∀ w ∈ ws, 0 ≤ w.balance) (ha : 0 < a)
    (fw : Wallet) (hfw : ws.find? (walletKey f c) = some fw) (hbal : a ≤ fw.balance) :
    ∀ w ∈ updateFirst (walletKey t c) (fun w => { w with balance := w.balance + a })
        (updateFirst (walletKey f c) (fun w => { w with balance := w.balance - a }) ws),
      0 ≤ w.balance := by
  intro w hw
  rcases updateFirst_mem hw with hw1 | ⟨w2, hw2, rfl⟩
  · rcases updateFirst_mem hw1 with hw3 | ⟨w4, hw4, rfl⟩
    · exact hws _ hw3
    · rw [hfw] at hw4
      obtain rfl := Option.some.inj hw4
      show 0 ≤ fw.balance - a
      linarith
  · have hw2m := List.mem_of_find?_eq_some hw2
    rcases updateFirst_mem hw2m with hw3 | ⟨w4, hw4, rfl⟩
    · have := hws _ hw3
      show 0 ≤ w2.balance + a
      linarith
    · rw [hfw] at hw4
      obtain rfl := Option.some.inj hw4
      show 0 ≤ fw.balance - a + a
      linarith

theorem addMoney_nonneg (db : DB) (u : Nat) (a : Rat) (c : String)
    (h : WalletsNonneg db) : WalletsNonneg (addMoney db u a c).2 := by
  rcases addMoney_snd_shape db u a c with heq | ⟨ha, w, db1, heq1, heq⟩
  · rw [heq]; exact h
  · rw [heq]
    have hdb1 : WalletsNonneg db1 := by
      have := findOrCreateWallet_nonneg db u c h
      rw [heq1] at this
      exact this
    have ha' : 0 < a := lt_of_not_le ha
    intro x hx
    rcases updateFirst_mem hx with hx1 | ⟨w2, hw2, rfl⟩
    · exact hdb1 _ hx1
    · have hm := hdb1 _ (List.mem_of_find?_eq_some hw2)
      show 0 ≤ w2.balance + a
      linarith

theorem transferMoney_nonneg (db : DB) (f t : Nat) (a : Rat) (c : String)
    (h : WalletsNonneg db) : WalletsNonneg (transferMoney db f t a c).2 := by
  rcases transferMoney_snd_shape db f t a c with heq | ⟨ha, fw, db1, tw, db2, heq1, heq2, hbal, heq⟩
  · rw [heq]; exact h
  · rw [heq]
    have hdb1 : WalletsNonneg db1 := by
      have := findOrCreateWallet_nonneg db f c h
      rw [heq1] at this
      exact this
    have hdb2 : WalletsNonneg db2 := by
      have := findOrCreateWallet_nonneg db1 t c hdb1
      rw [heq2] at this
      exact this
    have hfind1 : db1.wallets.find? (walletKey f c) = some fw := by
      have := findOrCreateWallet_find_self db f c
      rw [heq1] at this
      exact this
    have hfind2 : db2.wallets.find? (walletKey f c) = some fw := by
      have := findOrCreateWallet_find_preserved db1 t c hfind1
      rw [heq2] at this
      exact this
    have ha' : 0 < a := lt_of_not_le ha
    have hbal' : a ≤ fw.balance := by
      simp only [Wallet.hasInsufficientBalance] at hbal
      exact le_of_not_lt (by simpa using hbal)
    exact nonneg_after_moves db2.wallets f t c a hdb2 ha' fw hfind2 hbal'

/-- Witness for C4: the self-transfer validation failure at a concrete store,
with the store unchanged. -/
theorem transferMoney_failure_atomic_witness :
    (transferMoney dbLedger 1 1 50 "USD").1 = .error "Cannot transfer money to yourself" ∧
    (transferMoney dbLedger 1 1 50 "USD").2 = dbLedger :=
  ⟨rfl, transferMoney_failure_atomic dbLedger 1 1 50 "USD"
    "Cannot transfer money to yourself" rfl⟩

/-- C1: refuted on the code as modelled.  transferMoney's balance check uses
the wallet value SELECTed earlier in the call without a row lock, and the
debit is a relative UPDATE, so under the interleaving in which both concurrent
calls read the sender wallet (balance 100) before either debit runs, both
stale checks pass: both transfers of 80 commit and the final balance is -60 —
not exactly one success and one insufficient-funds failure. -/
theorem double_spend_schedule_both_commit :
    (runSchedule [true, false, true, false] senderWallet freshCall freshCall).2.1.committed
        = some true ∧
    (runSchedule [true, false, true, false] senderWallet freshCall freshCall).2.2.committed
        = some true ∧
    (runSchedule [true, false, true, false] senderWallet freshCall freshCall).1.balance = -60 := by
  norm_num [runSchedule, stepCall, senderWallet, freshCall, Wallet.hasInsufficientBalance]

/-- C2: refuted on the code.  MultiSigService.approveTransaction only updates
the pending record (status flag, approvedAt, message) and never issues a
Ledger transfer: wallet rows are untouched by every approve call, and in the
spec §8 scenario the approval succeeds yet A stays at 500 and B at 0 instead
of 350/150. -/
theorem approveTransaction_executes_no_ledger_transfer :
    (∀ (db : DB) (tid uid now : Nat) (msg : Option String),
      (approveTransaction db tid uid now msg).2.wallets = db.wallets) ∧
    (approveTransaction dbApproval 1 3 1000 none).2.pendings.map PendingTransaction.status
        = [TransactionStatus.approved] ∧
    (approveTransaction dbApproval 1 3 1000 none).2.wallets.map Wallet.balance = [500, 0] := by
  refine ⟨?_, ?_, ?_⟩
  · intro db tid uid now msg
    unfold approveTransaction
    repeat' split
    all_goals rfl
  · simp [approveTransaction, approveQuery, dbApproval, List.find?,
      PendingTransaction.canBeApproved, PendingTransaction.isExpired,
      PendingTransaction.approveRecord, updateFirst]
  · simp [approveTransaction, approveQuery, dbApproval, List.find?,
      PendingTransaction.canBeApproved, PendingTransaction.isExpired,
      PendingTransaction.approveRecord, updateFirst]

/-- C3: refuted on the code.  WalletController.transfer invokes
TransactionService.transferMoney directly and never consults
checkMultiSigRequired: transferMoney never creates a pending record, and in a
store where policy evaluation requires approval (threshold 100, amount 150)
the transfer is applied to the ledger immediately (A 500 to 350, B 0 to 150). -/
theorem transfer_bypasses_approval_policy :
    (∀ (db : DB) (f t : Nat) (a : Rat) (c : String),
      (transferMoney db f t a c).2.pendings = db.pendings) ∧
    (checkMultiSigRequired dbPolicy 1 150).requiresMultiSig = true ∧
    (transferMoney dbPolicy 1 2 150 "USD").1 =
      .ok { fromUserId := 1, toUserId := 2, fromNewBalance := 350, toNewBalance := 150,
            amount := 150, currency := "USD" } ∧
    (transferMoney dbPolicy 1 2 150 "USD").2.wallets.map Wallet.balance = [350, 150] := by
  refine ⟨?_, ?_, ?_, ?_⟩
  case refine_2 =>
    simp [checkMultiSigRequired, dbPolicy, policySettings, List.find?,
      MultiSigSettings.hasValidSigner]
    norm_num
  case refine_3 =>
    simp [transferMoney, findOrCreateWallet, walletKey, updateFirst,
      Wallet.hasInsufficientBalance, dbPolicy, List.find?]
    norm_num
  case refine_4 =>
    simp [transferMoney, findOrCreateWallet, walletKey, updateFirst,
      Wallet.hasInsufficientBalance, dbPolicy, List.find?]
    norm_num
  intro db f t a c
  rcases transferMoney_snd_shape db f t a c with heq | ⟨ha, fw, db1, tw, db2, heq1, heq2, hbal, heq⟩
  · rw [heq]
  · rw [heq]
    show db2.pendings = db.pendings
    have h1 := findOrCreateWallet_pendings db f c
    have h2 := findOrCreateWallet_pendings db1 t c
    rw [heq1] at h1
    rw [heq2] at h2
    rw [h2, h1]

/-- C5: starting from a store whose wallet balances are all non-negative,
every sequence of addMoney (credit) and transferMoney operations keeps every
wallet balance non-negative: addMoney requires a positive amount, and
transferMoney debits only after hasInsufficientBalance rules out
balance < amount. -/
theorem ledger_ops_preserve_nonneg (ops : List LedgerOp) (db : DB)
    (h : WalletsNonneg db) : WalletsNonneg (ops.foldl applyLedgerOp db) := by
  induction ops generalizing db with
  | nil => exact h
  | cons op rest ih =>
    refine ih _ ?_
    cases op with
    | credit u a c => exact addMoney_nonneg db u a c h
    | transfer f t a c => exact transferMoney_nonneg db f t a c h

/-- Witness for C5: a concrete non-negative store stays non-negative under a
credit followed by a transfer. -/
theorem ledger_ops_preserve_nonneg_witness :
    WalletsNonneg dbLedger ∧
    WalletsNonneg
      ([LedgerOp.credit 1 50 "USD", LedgerOp.transfer 1 2 80 "USD"].foldl applyLedgerOp dbLedger) :=
  ⟨by norm_num [WalletsNonneg, dbLedger],
   ledger_ops_preserve_nonneg _ dbLedger (by norm_num [WalletsNonneg, dbLedger])⟩

/-- C6 counterexample: the record in dbExpired is expired at time 500 yet
still pending, and cancelTransaction by its initiator succeeds — returning the
record with status cancelled and persisting that status — instead of failing. -/
theorem cancel_expired_pending_succeeds :
    (dbExpired.pendings.map (fun t => t.isExpired 500)) = [true] ∧
    (dbExpired.pendings.map PendingTransaction.status) = [TransactionStatus.pending] ∧
    (cancelTransaction dbExpired 1 2).1 = .ok { expiredRec with status := .cancelled } ∧
    ((cancelTransaction dbExpired 1 2).2.pendings.map PendingTransaction.status)
        = [TransactionStatus.cancelled] := by
  refine ⟨?_, ?_, ?_, ?_⟩ <;>
    simp [dbExpired, expiredRec, cancelTransaction, cancelQuery, List.find?,
      PendingTransaction.isExpired, updateFirst]

/-- C6 amended: approveTransaction and rejectTransaction fail with an error
and leave the store unchanged when no pending row matches the lookup (terminal
or nonexistent record) and likewise when the matched pending row has already
expired, even before any sweep; cancelTransaction fails when no pending row
matches; but cancelTransaction by the initiator of an expired-but-still-pending
record succeeds and returns it with status cancelled. -/
theorem pending_actions_terminal_or_expired (db : DB) (tid uid iid now : Nat)
    (msg : Option String) (reason : String)
    (hr : reason.data.all Char.isWhitespace = false) :
    (db.pendings.find? (approveQuery tid uid) = none →
      approveTransaction db tid uid now msg =
        (.error "Failed to approve transaction: Pending transaction not found or already processed", db) ∧
      rejectTransaction db tid uid now reason =
        (.error "Failed to reject transaction: Pending transaction not found or already processed", db)) ∧
    (∀ t, db.pendings.find? (approveQuery tid uid) = some t → t.isExpired now = true →
      approveTransaction db tid uid now msg =
        (.error "Failed to approve transaction: Transaction cannot be approved in current state", db) ∧
      rejectTransaction db tid uid now reason =
        (.error "Failed to reject transaction: Transaction cannot be rejected in current state", db)) ∧
    (db.pendings.find? (cancelQuery tid iid) = none →
      cancelTransaction db tid iid =
        (.error "Failed to cancel transaction: Pending transaction not found or cannot be cancelled", db)) ∧
    (∀ t, db.pendings.find? (cancelQuery tid iid) = some t → t.isExpired now = true →
      (cancelTransaction db tid iid).1 = .ok { t with status := .cancelled }) := by
  refine ⟨fun hn => ⟨?_, ?_⟩, fun t ht hexp => ⟨?_, ?_⟩, fun hn => ?_, fun t ht hexp => ?_⟩
  · unfold approveTransaction
    rw [hn]
  · unfold rejectTransaction
    rw [hn]
  · unfold approveTransaction
    rw [ht]
    have hc : t.canBeApproved now = false := by
      simp [PendingTransaction.canBeApproved, hexp]
    simp [hc]
  · unfold rejectTransaction
    rw [ht]
    have hc : t.canBeApproved now = false := by
      simp [PendingTransaction.canBeApproved, hexp]
    simp [hc, hr]
  · unfold cancelTransaction
    rw [hn]
  · unfold cancelTransaction
    rw [ht]
    have hp : t.status = TransactionStatus.pending := by
      have hq := List.find?_some ht
      simp only [cancelQuery, Bool.and_eq_true, beq_iff_eq] at hq
      exact hq.2
    simp [hp]

/-- Witness for C6: the amended theorem applied at dbExpired, time 500 — the
expired-but-pending record cannot be approved, and the same record is
cancelled successfully by its initiator. -/
theorem pending_actions_terminal_or_expired_witness :
    approveTransaction dbExpired 1 3 500 none =
      (.error "Failed to approve transaction: Transaction cannot be approved in current state",
        dbExpired) ∧
    (cancelTransaction dbExpired 1 2).1 = .ok { expiredRec with status := .cancelled } := by
  have h := pending_actions_terminal_or_expired dbExpired 1 3 2 500 none "no" (by decide)
  exact ⟨(h.2.1 expiredRec (by decide) (by decide)).1,
         h.2.2.2 expiredRec (by decide) (by decide)⟩

/-- C7: when stored settings are locked (requiresSeedPhrase) and the request
disables the policy or changes the designated approver, updateSettings without
seed-phrase verification fails with the verification-required error and
returns the store unchanged. -/
theorem updateSettings_locked_requires_verification (db : DB) (userId : Nat)
    (data : MultiSigSettingsData) (s : MultiSigSettings)
    (hfind : db.settings.find? (fun x => x.userId == userId) = some s)
    (hlocked : s.requiresSeedPhrase = true)
    (hchange : (s.isEnabled = true ∧ data.isEnabled = false) ∨
               signerChangedJs s.signerUserId data.signerUserId = true) :
    updateSettings db userId data false =
      (.error "Failed to update multi-sig settings: Seed phrase verification required for this operation", db) := by
  unfold updateSettings
  rw [hfind]
  have hv : ((s.isEnabled && !data.isEnabled) ||
      signerChangedJs s.signerUserId data.signerUserId) = true := by
    rcases hchange with ⟨h1, h2⟩ | h
    · simp [h1, h2]
    · simp [h]
  simp [hv, hlocked]

/-- Witness for C7: disabling user 1's locked policy in dbLocked without a
verification token fails and leaves the store unchanged. -/
theorem updateSettings_locked_requires_verification_witness :
    updateSettings dbLocked 1 disableData false =
      (.error "Failed to update multi-sig settings: Seed phrase verification required for this operation",
        dbLocked) :=
  updateSettings_locked_requires_verification dbLocked 1 disableData lockedSettings
    (by decide) rfl (Or.inl ⟨rfl, rfl⟩)

/-- C8 counterexample: user 1, with no prior settings, names themselves as
approver.  The create passes the store's foreign key (the owner exists), the
call then returns the self-approver validation error — yet the created record
carrying user 1 as signer has already been persisted, so the stored settings
are not unchanged. -/
theorem updateSettings_self_signer_persists :
    (updateSettings dbNoSettings 1 selfSignerData false).1 =
      .error "Failed to update multi-sig settings: Cannot set yourself as the signer" ∧
    (updateSettings dbNoSettings 1 selfSignerData false).2.settings =
      [createSettings 1 selfSignerData] ∧
    (updateSettings dbNoSettings 1 selfSignerData false).2.settings ≠ dbNoSettings.settings := by
  refine ⟨?_, ?_, ?_⟩ <;>
    simp [updateSettings, dbNoSettings, selfSignerData, List.find?, validateSignerStep,
      createSettings, settingsRowFkOk]

/-- C8 amended: a nonexistent approver id makes the persist step itself fail —
the schema-enforced foreign key on signer_user_id rejects the INSERT/UPDATE —
so the call errors with the stored settings unchanged; an approver equal to
the owner passes the foreign key and is rejected by the service's own check,
but that check runs only after the settings were persisted, so the failing
self-approver call leaves the new record naming the owner as approver
persisted — shown here on the record-creation path. -/
theorem updateSettings_validates_after_persist (db : DB) (userId sid : Nat)
    (data : MultiSigSettingsData)
    (hnone : db.settings.find? (fun x => x.userId == userId) = none)
    (hsid : data.signerUserId = some sid) :
    (db.users.find? (fun u => u.id == sid) = none →
      updateSettings db userId data false =
        (.error "Failed to update multi-sig settings: Cannot add or update a child row: a foreign key constraint fails",
         db)) ∧
    (∀ u, db.users.find? (fun u => u.id == sid) = some u → u.id = userId → ¬ sid = 0 →
      updateSettings db userId data false =
        (.error "Failed to update multi-sig settings: Cannot set yourself as the signer",
         { db with settings := db.settings ++ [createSettings userId data] })) := by
  have hsig : (createSettings userId data).signerUserId = some sid := by
    simp [createSettings, hsid]
  constructor
  · intro hu
    have hfk : settingsRowFkOk db (createSettings userId data) = false := by
      simp [settingsRowFkOk, hsig, hu]
    unfold updateSettings
    rw [hnone]
    simp [hfk]
  · intro u hu hid hs0
    have husid : u.id = sid := by
      simpa using List.find?_some hu
    rw [husid] at hid
    subst hid
    have hfk : settingsRowFkOk db (createSettings sid data) = true := by
      simp [settingsRowFkOk, createSettings, hsid, hu]
    unfold updateSettings
    rw [hnone]
    simp only [hfk, if_true]
    show validateSignerStep
      { db with settings := db.settings ++ [createSettings sid data] } sid
      (createSettings sid data) = _
    unfold validateSignerStep
    rw [hsig]
    simp [hs0, hu, husid]

/-- Witness for C8's amended claim at the concrete store: the foreign key
stops the nonexistent approver 99 with nothing persisted, and the
self-approver request errors with its record persisted. -/
theorem updateSettings_validates_after_persist_witness :
    updateSettings dbNoSettings 1 badSignerData false =
      (.error "Failed to update multi-sig settings: Cannot add or update a child row: a foreign key constraint fails",
       dbNoSettings) ∧
    updateSettings dbNoSettings 1 selfSignerData false =
      (.error "Failed to update multi-sig settings: Cannot set yourself as the signer",
       { dbNoSettings with settings := dbNoSettings.settings ++ [createSettings 1 selfSignerData] }) :=
  ⟨(updateSettings_validates_after_persist dbNoSettings 1 99 badSignerData rfl rfl).1
      (by decide),
   (updateSettings_validates_after_persist dbNoSettings 1 1 selfSignerData rfl rfl).2
      { id := 1, isActive := true } (by decide) rfl (by decide)⟩

/-- C9: checkMultiSigRequired returns requiresMultiSig=false when the user has
no settings, the policy is disabled, no valid approver is set, or the amount
is strictly below the threshold, and true together with the stored approver id
otherwise; the threshold comparison is inclusive — exactly at the threshold it
returns true, at threshold - 0.01 it returns false. -/
theorem checkMultiSigRequired_spec (db : DB) (userId : Nat) (amount : Rat) :
    (db.settings.find? (fun s => s.userId == userId) = none →
      (checkMultiSigRequired db userId amount).requiresMultiSig = false) ∧
    (∀ s, db.settings.find? (fun s => s.userId == userId) = some s →
      (s.isEnabled = false → (checkMultiSigRequired db userId amount).requiresMultiSig = false) ∧
      (s.signerUserId = none → (checkMultiSigRequired db userId amount).requiresMultiSig = false) ∧
      (amount < s.thresholdAmount → (checkMultiSigRequired db userId amount).requiresMultiSig = false) ∧
      (s.isEnabled = true → s.signerUserId.isSome = true → s.thresholdAmount ≤ amount →
        (checkMultiSigRequired db userId amount).requiresMultiSig = true ∧
        (checkMultiSigRequired db userId amount).signerUserId = s.signerUserId) ∧
      (s.isEnabled = true → s.signerUserId.isSome = true →
        (checkMultiSigRequired db userId s.thresholdAmount).requiresMultiSig = true ∧
        (checkMultiSigRequired db userId (s.thresholdAmount - 1/100)).requiresMultiSig = false)) := by
  constructor
  · intro hn
    unfold checkMultiSigRequired
    rw [hn]
  · intro s hs
    refine ⟨?_, ?_, ?_, ?_, ?_⟩
    · intro he
      unfold checkMultiSigRequired
      rw [hs]
      simp [he]
    · intro hsig
      unfold checkMultiSigRequired
      rw [hs]
      by_cases he : s.isEnabled <;>
        simp [he, MultiSigSettings.hasValidSigner, hsig]
    · intro hlt
      unfold checkMultiSigRequired
      rw [hs]
      by_cases he : s.isEnabled <;> by_cases hv : s.signerUserId.isSome <;>
        simp [he, hv, MultiSigSettings.hasValidSigner, hlt]
    · intro he hv hge
      unfold checkMultiSigRequired
      rw [hs]
      simp [he, hv, MultiSigSettings.hasValidSigner, not_lt.mpr hge]
    · intro he hv
      constructor
      · unfold checkMultiSigRequired
        rw [hs]
        simp [he, hv, MultiSigSettings.hasValidSigner, lt_irrefl]
      · unfold checkMultiSigRequired
        rw [hs]
        have hlt : s.thresholdAmount - 1 / 100 < s.thresholdAmount := by
          have : (0 : Rat) < 1 / 100 := by norm_num
          linarith
        simp [he, hv, MultiSigSettings.hasValidSigner, hlt]

/-- Witness for C9: user 1's policy in dbPolicy has threshold 100 — an amount
of exactly 100 requires approval, 100 - 0.01 does not. -/
theorem checkMultiSigRequired_spec_witness :
    (checkMultiSigRequired dbPolicy 1 (100 : Rat)).requiresMultiSig = true ∧
    (checkMultiSigRequired dbPolicy 1 ((100 : Rat) - 1 / 100)).requiresMultiSig = false := by
  have h := (checkMultiSigRequired_spec dbPolicy 1 0).2 policySettings (by decide)
  exact ⟨(h.2.2.2.2 rfl rfl).1, (h.2.2.2.2 rfl rfl).2⟩

/-- C10: when no pending record with the given id is assigned to the caller as
signer — whether the id does not exist, the record is terminal, or it belongs
to another signer — approveTransaction fails with the one shared error of the
folded lookup, and the store is unchanged: the caller cannot distinguish a
nonexistent record from another signer's record. -/
theorem approve_wrong_signer_indistinguishable (db : DB) (tid uid now : Nat)
    (msg : Option String)
    (h : ∀ t ∈ db.pendings,
      ¬(t.id = tid ∧ t.signerUserId = uid ∧ t.status = TransactionStatus.pending)) :
    approveTransaction db tid uid now msg =
      (.error "Failed to approve transaction: Pending transaction not found or already processed", db) := by
  have hf : db.pendings.find? (approveQuery tid uid) = none := by
    rw [List.find?_eq_none]
    intro t ht
    simp only [approveQuery, Bool.and_eq_true, beq_iff_eq]
    exact fun hc => h t ht ⟨hc.1.1, hc.1.2, hc.2⟩
  unfold approveTransaction
  rw [hf]

/-- Witness for C10: the pending record in dbExpired belongs to signer 3;
caller 4 gets the same not-found error with the store unchanged. -/
theorem approve_wrong_signer_indistinguishable_witness :
    approveTransaction dbExpired 1 4 500 none =
      (.error "Failed to approve transaction: Pending transaction not found or already processed",
        dbExpired) :=
  approve_wrong_signer_indistinguishable dbExpired 1 4 500 none (by decide)

end PayLentine
